import Mathlib

/-!
Verification development for the mailomat subscriber-management backend
(repository `vkavsek/zero2prod`): the subscriber lifecycle state machine,
the Basic-auth gate for newsletter dispatch, and the subscription workflow.

Bytes of HTTP header values are modelled as `List Nat` (each entry one
octet); strings as Lean `String`.
-/

namespace Mailomat

/-- Modelled from the spec §4.4: one octet of a header value. -/
abbrev Byte := Nat

/-- Whether a byte is a UTF-8 continuation byte (`10xxxxxx`). -/
def isCont (b : Byte) : Bool := 0x80 ≤ b && b ≤ 0xBF

/-- Modelled from the spec §4.4 ("Decodes as UTF-8; fails `InvalidUtf(detail)`
on decode error"): UTF-8 validity of a byte sequence, the standard automaton
with the `0xE0`/`0xED`/`0xF0`/`0xF4` second-byte restrictions; the decoder
itself is not in `src/`. -/
def utf8Valid : List Byte → Bool
  | [] => true
  | b :: rest =>
    if b ≤ 0x7F then utf8Valid rest
    else if 0xC2 ≤ b && b ≤ 0xDF then
      match rest with
      | c1 :: r => isCont c1 && utf8Valid r
      | [] => false
    else if 0xE0 ≤ b && b ≤ 0xEF then
      match rest with
      | c1 :: c2 :: r =>
        isCont c1 && isCont c2 &&
        (if b = 0xE0 then decide (0xA0 ≤ c1)
         else if b = 0xED then decide (c1 ≤ 0x9F) else true) &&
        utf8Valid r
      | _ => false
    else if 0xF0 ≤ b && b ≤ 0xF4 then
      match rest with
      | c1 :: c2 :: c3 :: r =>
        isCont c1 && isCont c2 && isCont c3 &&
        (if b = 0xF0 then decide (0x90 ≤ c1)
         else if b = 0xF4 then decide (c1 ≤ 0x8F) else true) &&
        utf8Valid r
      | _ => false
    else false

/-- Value of one base64 alphabet character (standard alphabet), `none` when
the byte is not in the alphabet. -/
def b64CharVal (c : Byte) : Option Nat :=
  if 65 ≤ c && c ≤ 90 then some (c - 65)
  else if 97 ≤ c && c ≤ 122 then some (c - 97 + 26)
  else if 48 ≤ c && c ≤ 57 then some (c - 48 + 52)
  else if c = 43 then some 62
  else if c = 47 then some 63
  else none

/-- Modelled from the spec §4.4 ("Decodes credentials payload (base64); fails
`Base64Decode` on malformed payload"): standard base64 decoding with `=`
padding (byte 61); the helper `b64_encode`/`b64_decode` is not in `src/`. -/
def b64Decode : List Byte → Option (List Byte)
  | [] => some []
  | [a, b, 61, 61] =>
    match b64CharVal a, b64CharVal b with
    | some va, some vb => some [va * 4 + vb / 16]
    | _, _ => none
  | [a, b, c, 61] =>
    match b64CharVal a, b64CharVal b, b64CharVal c with
    | some va, some vb, some vc =>
      some [va * 4 + vb / 16, (vb % 16) * 16 + vc / 4]
    | _, _, _ => none
  | a :: b :: c :: d :: rest =>
    match b64CharVal a, b64CharVal b, b64CharVal c, b64CharVal d,
        b64Decode rest with
    | some va, some vb, some vc, some vd, some tail =>
      some ([va * 4 + vb / 16, (vb % 16) * 16 + vc / 4,
             (vc % 4) * 64 + vd] ++ tail)
    | _, _, _, _, _ => none
  | _ => none

/-- Error payload of `AuthError.Base64Decode`, embedding
`crate::utils::B64DecodeError` from `src/src/web/auth/error.rs`. -/
inductive B64DecodeError
  | MalformedInput
deriving DecidableEq

/-- Error payload of `AuthError.Sqlx`, embedding `sqlx::Error` from
`src/src/web/auth/error.rs`. -/
inductive SqlxError
  | RowNotFound
  | Connectivity (msg : String)
deriving DecidableEq

/-- The auth-gate error enum, embedding `AuthError` from
`src/src/web/auth/error.rs` variant for variant. -/
inductive AuthError
  | InvalidLoginParams (msg : String)
  | MissingAuthHeader
  | InvalidUtf (detail : String)
  | MissingColon
  | WrongAuthSchema (expected : String)
  | Sqlx (e : SqlxError)
  | Base64Decode (e : B64DecodeError)
deriving DecidableEq

/-- A decoded `username:password` pair, embedding the spec §3 Credential. -/
structure Credential where
  username : List Byte
  password : List Byte
deriving DecidableEq

/-- The bytes of `"Basic "`, the expected authentication scheme tag. -/
def basicTag : List Byte := [66, 97, 115, 105, 99, 32]

/-- Strip an expected byte prefix, `none` when the list does not start
with it. -/
def stripTag : List Byte → List Byte → Option (List Byte)
  | [], l => some l
  | _ :: _, [] => none
  | p :: ps, x :: xs => if p = x then stripTag ps xs else none

/-- Split a byte list at the first colon (byte 58), `none` when no colon
occurs. -/
def splitFirstColon : List Byte → Option (List Byte × List Byte)
  | [] => none
  | b :: rest =>
    if b = 58 then some ([], rest)
    else
      match splitFirstColon rest with
      | some (u, p) => some (b :: u, p)
      | none => none

/-- Modelled from the spec §4.4: the header-parsing stage of the auth gate.
Fails `MissingAuthHeader` when the header is absent, `InvalidUtf` on a UTF-8
decode error, `WrongAuthSchema("Basic")` when the scheme tag mismatches,
`Base64Decode` on a malformed base64 payload and `MissingColon` when the
decoded payload has no colon; the parsing code is not in `src/`, only its
error type `src/src/web/auth/error.rs` is. -/
def parseBasicHeader (header : Option (List Byte)) :
    Except AuthError Credential :=
  match header with
  | none => .error .MissingAuthHeader
  | some bytes =>
    if utf8Valid bytes = false then .error (.InvalidUtf "invalid utf-8")
    else
      match stripTag basicTag bytes with
      | none => .error (.WrongAuthSchema "Basic")
      | some payload =>
        match b64Decode payload with
        | none => .error (.Base64Decode .MalformedInput)
        | some decoded =>
          match splitFirstColon decoded with
          | none => .error .MissingColon
          | some (u, p) => .ok ⟨u, p⟩

/-- Modelled from the spec §4.4: the full auth gate — parse the header, then
compare against the stored operator credential, failing
`InvalidLoginParams` on mismatch. The stored credential is passed in
explicitly (its store lookup is modelled as already resolved). -/
def authGate (header : Option (List Byte)) (stored : Credential) :
    Except AuthError Credential :=
  match parseBasicHeader header with
  | .error e => .error e
  | .ok c =>
    if c = stored then .ok c
    else .error (.InvalidLoginParams "username or password mismatch")

/-- Raw subscription input as deserialized from the request body, embedding
`DeserSubscriber` (spec §3 RawSubscriberInput); its defining code is not in
`src/`, only its use in `src/tests/api/helpers.rs`. -/
structure DeserSubscriber where
  name : String
  email : String
deriving DecidableEq

/-- A validated subscriber, embedding `ValidSubscriber` (spec §3); its
defining code is not in `src/`. -/
structure ValidSubscriber where
  name : String
  email : String
deriving DecidableEq

/-- Modelled from the spec §4.1: a forbidden subscriber-name character,
given by code point (slash, parentheses, double quote, angle brackets,
backslash, braces). -/
def forbiddenNameChar (c : Char) : Bool :=
  c.toNat ∈ [47, 40, 41, 34, 60, 62, 92, 123, 125]

/-- Modelled from the spec §4.1: a subscriber name is valid when it is not
empty or whitespace-only, does not exceed the configured maximum length
(256), and contains no forbidden characters. -/
def validName (s : String) : Bool :=
  !(s.data.all (fun c => c.isWhitespace)) && s.data.length ≤ 256 &&
    s.data.all (fun c => !(forbiddenNameChar c))

/-- Modelled from the spec §4.1: address-grammar check for an email — a
nonempty local part, exactly one at-sign (code point 64), a nonempty domain,
and no whitespace anywhere. -/
def validEmail (s : String) : Bool :=
  let cs := s.data
  let loc := cs.takeWhile (fun c => c.toNat != 64)
  match cs.dropWhile (fun c => c.toNat != 64) with
  | [] => false
  | _ :: dom =>
    !loc.isEmpty && !dom.isEmpty && dom.all (fun c => c.toNat != 64) &&
      cs.all (fun c => !(c.isWhitespace))

/-- Validation failure, spec §4.1 ValidationError. -/
inductive ValidationError
  | InvalidName (s : String)
  | InvalidEmail (s : String)
deriving DecidableEq

/-- Modelled from the spec §4.1: `validate(raw) -> Result<ValidSubscriber,
ValidationError>` — the fallible conversion from `DeserSubscriber` to
`ValidSubscriber`; the conversion code is not in `src/`, only its use in
`src/tests/api/helpers.rs`. -/
def validateSubscriber (raw : DeserSubscriber) :
    Except ValidationError ValidSubscriber :=
  if validName raw.name = false then .error (.InvalidName raw.name)
  else if validEmail raw.email = false then .error (.InvalidEmail raw.email)
  else .ok ⟨raw.name, raw.email⟩

/-- Subscription status, embedding the `status` column values
`pending_confirmation` / `confirmed` (spec §3). -/
inductive SubStatus
  | PendingConfirmation
  | Confirmed
deriving DecidableEq

/-- A stored subscription row, spec §3 SubscriptionRecord (the
`subscribed_at` timestamp is not modelled; ids are `Nat` in place of
UUIDs). -/
structure SubscriptionRecord where
  id : Nat
  email : String
  name : String
  status : SubStatus
deriving DecidableEq

/-- The persistent store: subscription rows, the confirmation-token table
(token, subscriber id), and the fresh-id counter (spec §3, §4.3). -/
structure Store where
  records : List SubscriptionRecord
  tokens : List (String × Nat)
  nextId : Nat
deriving DecidableEq

/-- The empty store. -/
def Store.empty : Store := ⟨[], [], 0⟩

/-- Modelled from the spec §4.3: `insert_pending(subscriber)` — idempotent
per unique email: when a record for the email already exists its id is
returned and the store is unchanged, otherwise a fresh PendingConfirmation
row is appended. -/
def insertPending (st : Store) (sub : ValidSubscriber) : Store × Nat :=
  match st.records.find? (fun r => r.email == sub.email) with
  | some r => (st, r.id)
  | none =>
    ({ st with
        records :=
          st.records ++ [⟨st.nextId, sub.email, sub.name,
            .PendingConfirmation⟩],
        nextId := st.nextId + 1 },
      st.nextId)

/-- The opaque token text issued for a subscriber id (spec §4.2; randomness
is not modelled, the token is a deterministic function of the id). -/
def mkToken (id : Nat) : String := "tok" ++ toString id

/-- Modelled from the spec §4.2 and §4.5: token issuance — an existing token
for the subscriber is reused (idempotent re-issue), otherwise a fresh token
row is inserted; it runs in the same transaction as `insertPending`, so the
two updates surface as one combined state change in `subscribe`. -/
def issueToken (st : Store) (id : Nat) : Store × String :=
  match st.tokens.find? (fun t => t.2 == id) with
  | some t => (st, t.1)
  | none => ({ st with tokens := (mkToken id, id) :: st.tokens }, mkToken id)

/-- One fragment of an email body as seen by the link finder of
`src/tests/api/helpers.rs` (`get_confirmation_links`): either plain text or
a URL. -/
inductive Tok
  | text (s : String)
  | url (s : String)
deriving DecidableEq

/-- The URLs embedded in a body, in order. -/
def urlsOf (body : List Tok) : List String :=
  body.filterMap (fun t => match t with | .url u => some u | _ => none)

/-- An outbound email handed to the transport: recipient, HTML body, plain
text body (spec §6 `send`; subject not modelled). -/
structure EmailMsg where
  recipient : String
  htmlBody : List Tok
  textBody : List Tok
deriving DecidableEq

/-- Modelled from the spec §6: the confirmation link,
`<base_url>/subscriptions/confirm?token=<token>`. -/
def confirmationLink (baseUrl token : String) : String :=
  baseUrl ++ "/subscriptions/confirm?token=" ++ token

/-- Modelled from the spec §4.5 and the tests: the confirmation email — each
body embeds the confirmation link as its only URL (templating is an external
collaborator; only the link placement is contractual). -/
def mkConfirmEmail (rcpt link : String) : EmailMsg :=
  ⟨rcpt,
    [.text "Welcome to our newsletter! Click ", .url link,
      .text " to confirm your subscription."],
    [.text "Welcome to our newsletter! Visit ", .url link,
      .text " to confirm your subscription."]⟩

/-- Modelled from the spec §4.5 transition 1: `subscribe(raw)` — validate,
insert the pending record (idempotent), issue or reuse the token (same
transaction), and hand exactly one confirmation email to the transport.
Returns the post-transaction store and the list of transport sends. -/
def subscribe (baseUrl : String) (st : Store) (raw : DeserSubscriber) :
    Except ValidationError (Store × List EmailMsg) :=
  match validateSubscriber raw with
  | .error e => .error e
  | .ok sub =>
    let p1 := insertPending st sub
    let p2 := issueToken p1.1 p1.2
    .ok (p2.1,
      [mkConfirmEmail sub.email (confirmationLink baseUrl p2.2)])

/-- Token-resolution failure, spec §4.2 TokenError. -/
inductive TokenError
  | TokenNotFound
deriving DecidableEq

/-- Modelled from the spec §4.5 transition 2: `confirm(token)` — resolve the
token and set the owning record to Confirmed (idempotent; failing with
`TokenNotFound` for an unknown token). -/
def confirm (st : Store) (token : String) : Except TokenError Store :=
  match st.tokens.find? (fun t => t.1 == token) with
  | none => .error .TokenNotFound
  | some t =>
    .ok { st with
      records := st.records.map
        (fun r => if r.id = t.2 then { r with status := .Confirmed } else r) }

/-- Counts of side-effecting collaborator calls made by one `broadcast`
request: store reads and email-transport sends. -/
structure Transcript where
  storeReads : Nat
  sends : Nat
deriving DecidableEq

/-- Modelled from the spec §4.6: newsletter dispatch — run the auth gate
first; on parse failure abort with zero collaborator calls; on parse success
read the operator credential from the store (one store read), and only with
matching credentials read the confirmed list (second store read) and send
one email per confirmed recipient. Returns the recipients reached and the
transcript of collaborator calls. -/
def broadcast (header : Option (List Byte)) (stored : Credential)
    (confirmed : List String) : Except AuthError (List String) × Transcript :=
  match parseBasicHeader header with
  | .error e => (.error e, ⟨0, 0⟩)
  | .ok c =>
    if c = stored then (.ok confirmed, ⟨2, confirmed.length⟩)
    else (.error (.InvalidLoginParams "username or password mismatch"),
      ⟨1, 0⟩)

/-- A JSON field of the subscription request body: absent, JSON null, or a
string (spec §8 examples; `src/tests/api/subscriptions.rs`). -/
inductive FieldVal
  | missing
  | null
  | str (s : String)
deriving DecidableEq

/-- The raw JSON request body of `POST /api/subscribe`. -/
structure RawPayload where
  name : FieldVal
  email : FieldVal
deriving DecidableEq

/-- Deserialization of the request body: both fields must be present
strings, otherwise the body is malformed (serde rejects a missing or null
required string field). -/
def deserPayload (p : RawPayload) : Option DeserSubscriber :=
  match p.name, p.email with
  | .str n, .str e => some ⟨n, e⟩
  | _, _ => none

/-- Modelled from the spec §8 boundary mapping: the HTTP status of
`POST /api/subscribe` — 422 for a malformed body, 400 for a validation
failure, 200 on success. -/
def subscribeStatus (baseUrl : String) (st : Store) (p : RawPayload) : Nat :=
  match deserPayload p with
  | none => 422
  | some raw =>
    match subscribe baseUrl st raw with
    | .error _ => 400
    | .ok _ => 200

/-- The operator credential used by the test helper
(`src/tests/api/helpers.rs`, `post_api_news`): username `admin`, password
`password`, as bytes. -/
def cred0 : Credential :=
  ⟨[97, 100, 109, 105, 110],
   [112, 97, 115, 115, 119, 111, 114, 100]⟩

/-- The store invariant of spec §4.2/§4.3: a subscription record with a
given id exists exactly when a confirmation token resolving to that id
exists. -/
def Inv (st : Store) : Prop :=
  ∀ id, (∃ r ∈ st.records, r.id = id) ↔ ∃ tok, (tok, id) ∈ st.tokens

/-- Modelled from the spec §5: one observable state transition of the store
— a successful `subscribe` or a successful `confirm`. Each operation is one
atomic transaction, so its intermediate states are not observable. -/
inductive Step : Store → Store → Prop
  | subscribeStep (baseUrl : String) (st : Store) (raw : DeserSubscriber)
      (st2 : Store) (ems : List EmailMsg)
      (h : subscribe baseUrl st raw = .ok (st2, ems)) : Step st st2
  | confirmStep (st : Store) (token : String) (st2 : Store)
      (h : confirm st token = .ok st2) : Step st st2

/-- Store states reachable from the empty store by observable
transitions. -/
def Reachable (st : Store) : Prop :=
  Relation.ReflTransGen Step Store.empty st

/-! ## Helper lemmas -/

/-- A successful validation returns the submitted name and email unchanged,
and both field checks passed. -/
theorem validateSubscriber_ok {raw : DeserSubscriber} {sub : ValidSubscriber}
    (h : validateSubscriber raw = .ok sub) :
    sub = ⟨raw.name, raw.email⟩ ∧ validName raw.name = true ∧
      validEmail raw.email = true := by
  unfold validateSubscriber at h
  split_ifs at h with h1 h2
  cases h
  exact ⟨rfl, by simpa using h1, by simpa using h2⟩

/-- On a store with no record for the email, `insertPending` appends one
fresh PendingConfirmation row. -/
theorem insertPending_fresh {st : Store} {sub : ValidSubscriber}
    (h : ∀ r ∈ st.records, r.email ≠ sub.email) :
    insertPending st sub =
      ({ st with
          records := st.records ++
            [⟨st.nextId, sub.email, sub.name, .PendingConfirmation⟩],
          nextId := st.nextId + 1 }, st.nextId) := by
  unfold insertPending
  have hf : st.records.find? (fun r => r.email == sub.email) = none :=
    List.find?_eq_none.mpr (fun r hr => by simpa using h r hr)
  rw [hf]

/-- When a record matching the email is found, `insertPending` returns its
id and leaves the store unchanged. -/
theorem insertPending_existing {st : Store} {sub : ValidSubscriber}
    {r : SubscriptionRecord}
    (h : st.records.find? (fun x => x.email == sub.email) = some r) :
    insertPending st sub = (st, r.id) := by
  unfold insertPending
  rw [h]

/-- `insertPending` always leaves some record carrying the returned id and
the subscriber's email. -/
theorem insertPending_mem (st : Store) (sub : ValidSubscriber) :
    ∃ r ∈ (insertPending st sub).1.records,
      r.id = (insertPending st sub).2 ∧ r.email = sub.email := by
  unfold insertPending
  cases h : st.records.find? (fun r => r.email == sub.email) with
  | some r =>
    exact ⟨r, List.mem_of_find?_eq_some h, rfl,
      by simpa using List.find?_some h⟩
  | none =>
    exact ⟨⟨st.nextId, sub.email, sub.name, .PendingConfirmation⟩,
      by simp, rfl, rfl⟩

/-- `issueToken` does not touch the subscription rows. -/
theorem issueToken_records (st : Store) (id : Nat) :
    (issueToken st id).1.records = st.records := by
  unfold issueToken
  cases st.tokens.find? (fun t => t.2 == id) <;> rfl

/-- `issueToken` does not touch the fresh-id counter. -/
theorem issueToken_nextId (st : Store) (id : Nat) :
    (issueToken st id).1.nextId = st.nextId := by
  unfold issueToken
  cases st.tokens.find? (fun t => t.2 == id) <;> rfl

/-- The token returned by `issueToken` resolves to the subscriber id in the
resulting store. -/
theorem issueToken_mem (st : Store) (id : Nat) :
    ((issueToken st id).2, id) ∈ (issueToken st id).1.tokens := by
  unfold issueToken
  cases h : st.tokens.find? (fun t => t.2 == id) with
  | some t =>
    have h2 : t.2 = id := by simpa using List.find?_some h
    have h3 := List.mem_of_find?_eq_some h
    simpa [← h2] using h3
  | none => simp

/-- Issuing a token twice for the same subscriber is idempotent. -/
theorem issueToken_idem (st : Store) (id : Nat) :
    issueToken (issueToken st id).1 id = issueToken st id := by
  unfold issueToken
  cases h : st.tokens.find? (fun t => t.2 == id) with
  | some t => simp [h]
  | none => simp

/-- Shape of a successful `subscribe` in terms of the two store
operations. -/
theorem subscribe_ok_form {baseUrl : String} {st : Store}
    {raw : DeserSubscriber} {sub : ValidSubscriber}
    (hv : validateSubscriber raw = .ok sub) :
    subscribe baseUrl st raw =
      .ok ((issueToken (insertPending st sub).1 (insertPending st sub).2).1,
        [mkConfirmEmail sub.email (confirmationLink baseUrl
          (issueToken (insertPending st sub).1
            (insertPending st sub).2).2)]) := by
  simp [subscribe, hv]

/-! ## Claim theorems -/

/-- C4: the auth gate fails with exactly one distinguishable error variant
per failure cause, in check order: `MissingAuthHeader` when the
Authorization header is absent, `InvalidUtf` on a UTF-8 decode error,
`WrongAuthSchema("Basic")` when the scheme is not the expected one,
`Base64Decode` on a malformed base64 payload, `MissingColon` when the
decoded payload has no colon, and `InvalidLoginParams` on credential
mismatch. Each later check runs only once every earlier check has
passed. -/
theorem authGate_error_variants (stored : Credential) :
    (authGate none stored = .error .MissingAuthHeader) ∧
    (∀ bytes, utf8Valid bytes = false →
      authGate (some bytes) stored = .error (.InvalidUtf "invalid utf-8")) ∧
    (∀ bytes, utf8Valid bytes = true → stripTag basicTag bytes = none →
      authGate (some bytes) stored = .error (.WrongAuthSchema "Basic")) ∧
    (∀ bytes payload, utf8Valid bytes = true →
      stripTag basicTag bytes = some payload → b64Decode payload = none →
      authGate (some bytes) stored =
        .error (.Base64Decode .MalformedInput)) ∧
    (∀ bytes payload decoded, utf8Valid bytes = true →
      stripTag basicTag bytes = some payload →
      b64Decode payload = some decoded → splitFirstColon decoded = none →
      authGate (some bytes) stored = .error .MissingColon) ∧
    (∀ header c, parseBasicHeader header = .ok c → c ≠ stored →
      authGate header stored =
        .error (.InvalidLoginParams "username or password mismatch")) := by
  refine ⟨rfl, ?_, ?_, ?_, ?_, ?_⟩
  · intro bytes h
    simp [authGate, parseBasicHeader, h]
  · intro bytes h1 h2
    simp [authGate, parseBasicHeader, h1, h2]
  · intro bytes payload h1 h2 h3
    simp [authGate, parseBasicHeader, h1, h2, h3]
  · intro bytes payload decoded h1 h2 h3 h4
    simp [authGate, parseBasicHeader, h1, h2, h3, h4]
  · intro header c h1 h2
    simp [authGate, h1, h2]

/-- Witness for C4: each failure cause exercised on a concrete header. -/
theorem authGate_error_variants_witness :
    authGate none cred0 = .error .MissingAuthHeader ∧
    authGate (some [255]) cred0 = .error (.InvalidUtf "invalid utf-8") ∧
    authGate (some [84, 111, 107, 101, 110, 32, 97, 98, 99]) cred0 =
      .error (.WrongAuthSchema "Basic") ∧
    authGate (some (basicTag ++ [64, 64, 64, 64])) cred0 =
      .error (.Base64Decode .MalformedInput) ∧
    authGate (some (basicTag ++ [89, 87, 82, 116, 97, 87, 52, 61])) cred0 =
      .error .MissingColon ∧
    authGate
      (some (basicTag ++ [89, 87, 82, 116, 97, 87, 52, 54, 99, 72, 99, 61]))
      cred0 =
      .error (.InvalidLoginParams "username or password mismatch") := by
  obtain ⟨h1, h2, h3, h4, h5, h6⟩ := authGate_error_variants cred0
  exact ⟨h1, h2 _ rfl, h3 _ rfl rfl, h4 _ _ rfl rfl rfl,
    h5 _ _ _ rfl rfl rfl rfl, h6 _ _ rfl (by decide)⟩

/-- C3: for every broadcast request whose Authorization header is absent or
invalid (it fails the header-parsing stage of the auth gate), `broadcast`
returns that auth failure and performs zero store reads and zero
email-transport sends. -/
theorem broadcast_auth_failure_no_side_effects
    (header : Option (List Byte)) (stored : Credential)
    (confirmed : List String) (e : AuthError)
    (h : parseBasicHeader header = .error e) :
    broadcast header stored confirmed = (.error e, ⟨0, 0⟩) := by
  simp [broadcast, h]

/-- Witness for C3: a request without an Authorization header. -/
theorem broadcast_auth_failure_no_side_effects_witness :
    parseBasicHeader none = .error .MissingAuthHeader ∧
    broadcast none cred0 ["le_guin@gmail.com"] =
      (.error .MissingAuthHeader, ⟨0, 0⟩) :=
  ⟨rfl, broadcast_auth_failure_no_side_effects none cred0
    ["le_guin@gmail.com"] .MissingAuthHeader rfl⟩

/-- C1: for every valid subscription input (on a store holding no record
for that email yet), `subscribe` succeeds, persists exactly one record with
the submitted email and name and status PendingConfirmation, and hands
exactly one confirmation email for that subscriber to the transport. -/
theorem subscribe_persists_one_pending
    (baseUrl : String) (st : Store) (raw : DeserSubscriber)
    (sub : ValidSubscriber)
    (hv : validateSubscriber raw = .ok sub)
    (hfresh : ∀ r ∈ st.records, r.email ≠ raw.email) :
    ∃ st2 em, subscribe baseUrl st raw = .ok (st2, [em]) ∧
      st2.records.filter (fun r => r.email == raw.email) =
        [⟨st.nextId, raw.email, raw.name, .PendingConfirmation⟩] ∧
      em.recipient = raw.email := by
  obtain ⟨rfl, -, -⟩ := validateSubscriber_ok hv
  refine ⟨_, _, subscribe_ok_form hv, ?_, rfl⟩
  rw [issueToken_records, @insertPending_fresh st ⟨raw.name, raw.email⟩ hfresh]
  rw [List.filter_append]
  have hnil : st.records.filter (fun r => r.email == raw.email) = [] :=
    List.filter_eq_nil_iff.mpr (fun r hr => by simpa using hfresh r hr)
  simp [hnil]

/-- Witness for C1: the example input of the spec and of
`api_subscribe_persists_the_new_subscriber`. -/
theorem subscribe_persists_one_pending_witness :
    ∃ st2 em,
      subscribe "http://127.0.0.1" Store.empty
        ⟨"John Doe", "john.doe@example.com"⟩ = .ok (st2, [em]) ∧
      st2.records.filter (fun r => r.email == "john.doe@example.com") =
        [⟨0, "john.doe@example.com", "John Doe", .PendingConfirmation⟩] ∧
      em.recipient = "john.doe@example.com" :=
  subscribe_persists_one_pending "http://127.0.0.1" Store.empty
    ⟨"John Doe", "john.doe@example.com"⟩
    ⟨"John Doe", "john.doe@example.com"⟩ rfl (by simp [Store.empty])

/-- C2: calling `subscribe` twice with the same email (on a store with no
prior record for it) leaves exactly one stored subscription record, and the
second call reports the same success result as the first — the same store
and the same outbound email, not an error. -/
theorem subscribe_duplicate_idempotent
    (baseUrl : String) (st : Store) (raw1 raw2 : DeserSubscriber)
    (sub1 sub2 : ValidSubscriber) (st1 : Store) (ems1 : List EmailMsg)
    (hv1 : validateSubscriber raw1 = .ok sub1)
    (hv2 : validateSubscriber raw2 = .ok sub2)
    (he : raw2.email = raw1.email)
    (hfresh : ∀ r ∈ st.records, r.email ≠ raw1.email)
    (h1 : subscribe baseUrl st raw1 = .ok (st1, ems1)) :
    subscribe baseUrl st1 raw2 = .ok (st1, ems1) ∧
      (st1.records.filter (fun r => r.email == raw1.email)).length = 1 := by
  obtain ⟨rfl, -, -⟩ := validateSubscriber_ok hv1
  obtain ⟨rfl, -, -⟩ := validateSubscriber_ok hv2
  rw [subscribe_ok_form hv1,
    @insertPending_fresh st ⟨raw1.name, raw1.email⟩ hfresh] at h1
  simp only [Except.ok.injEq, Prod.mk.injEq] at h1
  obtain ⟨rfl, rfl⟩ := h1
  have hrecords := issueToken_records
    { st with
        records := st.records ++
          [⟨st.nextId, raw1.email, raw1.name, .PendingConfirmation⟩],
        nextId := st.nextId + 1 }
    st.nextId
  have hnil : st.records.filter (fun r => r.email == raw1.email) = [] :=
    List.filter_eq_nil_iff.mpr (fun r hr => by simpa using hfresh r hr)
  have hn : st.records.find? (fun x => x.email == raw2.email) = none :=
    List.find?_eq_none.mpr (fun r hr => by
      rw [he]
      simpa using hfresh r hr)
  have hfind :
      (issueToken
        { st with
            records := st.records ++
              [⟨st.nextId, raw1.email, raw1.name, .PendingConfirmation⟩],
            nextId := st.nextId + 1 }
        st.nextId).1.records.find? (fun x => x.email == raw2.email) =
      some ⟨st.nextId, raw1.email, raw1.name, .PendingConfirmation⟩ := by
    rw [hrecords, List.find?_append, hn]
    simp [he]
  constructor
  · rw [subscribe_ok_form hv2,
      @insertPending_existing _ ⟨raw2.name, raw2.email⟩ _ hfind]
    rw [issueToken_idem]
    simp [he]
  · rw [hrecords, List.filter_append, hnil]
    simp

/-- Witness for C2: the duplicate-submission example of
`api_subscribe_duplicated_subscription_still_returns_200`. -/
theorem subscribe_duplicate_idempotent_witness :
    subscribe "http://127.0.0.1"
        ⟨[⟨0, "le_guin@gmail.com", "Ursula", .PendingConfirmation⟩],
          [("tok0", 0)], 1⟩
        ⟨"Ursula", "le_guin@gmail.com"⟩ =
      .ok (⟨[⟨0, "le_guin@gmail.com", "Ursula", .PendingConfirmation⟩],
          [("tok0", 0)], 1⟩,
        [mkConfirmEmail "le_guin@gmail.com"
          (confirmationLink "http://127.0.0.1" "tok0")]) ∧
    ((⟨[⟨0, "le_guin@gmail.com", "Ursula", .PendingConfirmation⟩],
        [("tok0", 0)], 1⟩ : Store).records.filter
      (fun r => r.email == "le_guin@gmail.com")).length = 1 :=
  subscribe_duplicate_idempotent "http://127.0.0.1" Store.empty
    ⟨"Ursula", "le_guin@gmail.com"⟩ ⟨"Ursula", "le_guin@gmail.com"⟩
    ⟨"Ursula", "le_guin@gmail.com"⟩ ⟨"Ursula", "le_guin@gmail.com"⟩
    _ _ rfl rfl rfl (by simp [Store.empty]) rfl

/-- `issueToken` establishes the record-token invariant at the issued id,
given a record with that id and the invariant at every other id. -/
theorem issueToken_inv (st : Store) (id : Nat)
    (hrec : ∃ r ∈ st.records, r.id = id)
    (hinv : ∀ i, i ≠ id →
      ((∃ r ∈ st.records, r.id = i) ↔ ∃ tok, (tok, i) ∈ st.tokens)) :
    Inv (issueToken st id).1 := by
  unfold issueToken
  cases hf : st.tokens.find? (fun t => t.2 == id) with
  | some t =>
    intro i
    by_cases hi : i = id
    · subst hi
      have h2 : t.2 = i := by simpa using List.find?_some hf
      have h3 := List.mem_of_find?_eq_some hf
      constructor
      · intro _
        exact ⟨t.1, by rw [← h2]; simpa using h3⟩
      · intro _
        exact hrec
    · exact hinv i hi
  | none =>
    intro i
    by_cases hi : i = id
    · subst hi
      constructor
      · intro _
        exact ⟨mkToken i, by simp⟩
      · intro _
        exact hrec
    · constructor
      · intro hr
        exact ((hinv i hi).1 hr).imp fun tok ht => by
          simpa using Or.inr ht
      · rintro ⟨tok, htok⟩
        rcases List.mem_cons.mp htok with heq | hmem
        · exact absurd (congrArg Prod.snd heq) hi
        · exact (hinv i hi).2 ⟨tok, hmem⟩

/-- The combined insert-then-issue transaction of `subscribe` preserves the
record-token invariant. -/
theorem subscribe_core_inv (st : Store) (sub : ValidSubscriber)
    (hinv : Inv st) :
    Inv (issueToken (insertPending st sub).1 (insertPending st sub).2).1 := by
  cases hf : st.records.find? (fun r => r.email == sub.email) with
  | some r =>
    rw [insertPending_existing hf]
    exact issueToken_inv st r.id ⟨r, List.mem_of_find?_eq_some hf, rfl⟩
      (fun i _ => hinv i)
  | none =>
    have hfr : insertPending st sub =
        ({ st with
            records := st.records ++
              [⟨st.nextId, sub.email, sub.name, .PendingConfirmation⟩],
            nextId := st.nextId + 1 }, st.nextId) := by
      unfold insertPending
      rw [hf]
    rw [hfr]
    apply issueToken_inv
    · exact ⟨⟨st.nextId, sub.email, sub.name, .PendingConfirmation⟩,
        by simp, rfl⟩
    · intro i hi
      rw [← hinv i]
      simp only [List.mem_append, List.mem_singleton]
      constructor
      · rintro ⟨r, hmem, hid⟩
        rcases hmem with hr | hr
        · exact ⟨r, hr, hid⟩
        · subst hr
          exact absurd hid.symm hi
      · rintro ⟨r, hr, hid⟩
        exact ⟨r, Or.inl hr, hid⟩

/-- A successful `subscribe` preserves the record-token invariant. -/
theorem subscribe_preserves_inv {baseUrl : String} {st : Store}
    {raw : DeserSubscriber} {st2 : Store} {ems : List EmailMsg}
    (h : subscribe baseUrl st raw = .ok (st2, ems)) (hinv : Inv st) :
    Inv st2 := by
  cases hv : validateSubscriber raw with
  | error e =>
    unfold subscribe at h
    rw [hv] at h
    cases h
  | ok sub =>
    rw [subscribe_ok_form hv] at h
    simp only [Except.ok.injEq, Prod.mk.injEq] at h
    obtain ⟨rfl, -⟩ := h
    exact subscribe_core_inv st sub hinv

/-- A successful `confirm` preserves the record-token invariant. -/
theorem confirm_preserves_inv {st : Store} {token : String} {st2 : Store}
    (h : confirm st token = .ok st2) (hinv : Inv st) : Inv st2 := by
  unfold confirm at h
  cases hf : st.tokens.find? (fun t => t.1 == token) with
  | none =>
    rw [hf] at h
    cases h
  | some t =>
    rw [hf] at h
    cases h
    have hids : ∀ r : SubscriptionRecord,
        (if r.id = t.2 then { r with status := SubStatus.Confirmed }
          else r).id = r.id := by
      intro r
      split <;> rfl
    intro i
    rw [← hinv i]
    simp only [List.mem_map]
    constructor
    · rintro ⟨r, ⟨x, hx, rfl⟩, hid⟩
      exact ⟨x, hx, by rwa [hids] at hid⟩
    · rintro ⟨x, hx, hid⟩
      exact ⟨_, ⟨x, hx, rfl⟩, by rwa [hids]⟩

/-- C5 (amended): in every observable (reachable) state, a subscription
record with a given id exists if and only if a confirmation token resolving
to that id exists — pending or confirmed: after a confirmation the token
stays resolvable while the record is no longer pending, so the
record-token correspondence holds for records of either status, not for
pending records only. -/
theorem record_iff_token (st : Store) (h : Reachable st) (id : Nat) :
    (∃ r ∈ st.records, r.id = id) ↔ ∃ tok, (tok, id) ∈ st.tokens := by
  have hinv : Inv st := by
    unfold Reachable at h
    induction h with
    | refl =>
      intro i
      simp [Store.empty]
    | tail hab hstep ih =>
      cases hstep with
      | subscribeStep baseUrl stb rawb stc ems hsub =>
        exact subscribe_preserves_inv hsub ih
      | confirmStep stb token stc hc =>
        exact confirm_preserves_inv hc ih
  exact hinv id

/-- Witness for C5 (amended): the empty store is reachable and satisfies
the correspondence at id 0. -/
theorem record_iff_token_witness :
    (∃ r ∈ Store.empty.records, r.id = 0) ↔
      ∃ tok, (tok, 0) ∈ Store.empty.tokens :=
  record_iff_token Store.empty Relation.ReflTransGen.refl 0

/-- Counterexample for C5 as stated: after subscribing Ursula and
confirming her token, the state is observable (reachable), a token
resolving to subscriber 0 exists, yet no pending record for subscriber 0
exists — the record is Confirmed, so "pending record exists iff resolvable
token exists" fails in the token-to-pending direction. -/
theorem pending_iff_token_counterexample :
    Reachable
      ⟨[⟨0, "le_guin@gmail.com", "Ursula", .Confirmed⟩], [("tok0", 0)], 1⟩ ∧
    (∃ tok, (tok, 0) ∈
      (⟨[⟨0, "le_guin@gmail.com", "Ursula", .Confirmed⟩], [("tok0", 0)], 1⟩
        : Store).tokens) ∧
    ¬(∃ r ∈
        (⟨[⟨0, "le_guin@gmail.com", "Ursula", .Confirmed⟩], [("tok0", 0)], 1⟩
          : Store).records,
        r.id = 0 ∧ r.status = .PendingConfirmation) := by
  refine ⟨?_, ⟨"tok0", by simp⟩, by simp⟩
  have s1 : Step Store.empty
      ⟨[⟨0, "le_guin@gmail.com", "Ursula", .PendingConfirmation⟩],
        [("tok0", 0)], 1⟩ :=
    Step.subscribeStep "http://127.0.0.1" Store.empty
      ⟨"Ursula", "le_guin@gmail.com"⟩ _
      [mkConfirmEmail "le_guin@gmail.com"
        (confirmationLink "http://127.0.0.1" "tok0")] rfl
  have s2 : Step
      ⟨[⟨0, "le_guin@gmail.com", "Ursula", .PendingConfirmation⟩],
        [("tok0", 0)], 1⟩
      ⟨[⟨0, "le_guin@gmail.com", "Ursula", .Confirmed⟩], [("tok0", 0)], 1⟩ :=
    Step.confirmStep _ "tok0" _ rfl
  exact Relation.ReflTransGen.tail (Relation.ReflTransGen.single s1) s2

/-- C6: for every successful subscription, the confirmation link placed in
the outgoing email is exactly `<base_url>/subscriptions/confirm?token=<token>`,
where the token is the opaque token that resolves, in the resulting store,
to the subscriber record of the submitted email. -/
theorem confirmation_link_shape
    (baseUrl : String) (st : Store) (raw : DeserSubscriber)
    (sub : ValidSubscriber) (st2 : Store) (em : EmailMsg)
    (hv : validateSubscriber raw = .ok sub)
    (h : subscribe baseUrl st raw = .ok (st2, [em])) :
    ∃ tok id,
      (tok, id) ∈ st2.tokens ∧
      (∃ r ∈ st2.records, r.id = id ∧ r.email = raw.email) ∧
      urlsOf em.htmlBody = [baseUrl ++ "/subscriptions/confirm?token=" ++ tok] ∧
      urlsOf em.textBody = [baseUrl ++ "/subscriptions/confirm?token=" ++ tok]
    := by
  obtain ⟨rfl, -, -⟩ := validateSubscriber_ok hv
  rw [subscribe_ok_form hv] at h
  simp only [Except.ok.injEq, Prod.mk.injEq, List.cons.injEq, and_true] at h
  obtain ⟨rfl, rfl⟩ := h
  refine ⟨_, (insertPending st ⟨raw.name, raw.email⟩).2,
    issueToken_mem _ _, ?_, ?_, ?_⟩
  · have hmem := insertPending_mem st ⟨raw.name, raw.email⟩
    rw [issueToken_records]
    exact hmem
  · simp [urlsOf, mkConfirmEmail, confirmationLink]
  · simp [urlsOf, mkConfirmEmail, confirmationLink]

/-- Witness for C6: the concrete run on the empty store. -/
theorem confirmation_link_shape_witness :
    ∃ tok id,
      (tok, id) ∈
        (⟨[⟨0, "le_guin@gmail.com", "Ursula", .PendingConfirmation⟩],
          [("tok0", 0)], 1⟩ : Store).tokens ∧
      (∃ r ∈
          (⟨[⟨0, "le_guin@gmail.com", "Ursula", .PendingConfirmation⟩],
            [("tok0", 0)], 1⟩ : Store).records,
        r.id = id ∧ r.email = "le_guin@gmail.com") ∧
      urlsOf (mkConfirmEmail "le_guin@gmail.com"
        (confirmationLink "http://127.0.0.1" "tok0")).htmlBody =
        ["http://127.0.0.1" ++ "/subscriptions/confirm?token=" ++ tok] ∧
      urlsOf (mkConfirmEmail "le_guin@gmail.com"
        (confirmationLink "http://127.0.0.1" "tok0")).textBody =
        ["http://127.0.0.1" ++ "/subscriptions/confirm?token=" ++ tok] :=
  confirmation_link_shape "http://127.0.0.1" Store.empty
    ⟨"Ursula", "le_guin@gmail.com"⟩ ⟨"Ursula", "le_guin@gmail.com"⟩
    _ _ rfl rfl

/-- C10: every confirmation email produced by `subscribe` carries exactly
one URL in its HTML body and exactly one URL in its plain-text body, and
the two are the same confirmation link. -/
theorem confirmation_email_single_equal_links
    (baseUrl : String) (st : Store) (raw : DeserSubscriber)
    (st2 : Store) (ems : List EmailMsg)
    (h : subscribe baseUrl st raw = .ok (st2, ems)) :
    ∃ em, ems = [em] ∧
      (urlsOf em.htmlBody).length = 1 ∧
      (urlsOf em.textBody).length = 1 ∧
      urlsOf em.htmlBody = urlsOf em.textBody := by
  cases hv : validateSubscriber raw with
  | error e =>
    unfold subscribe at h
    rw [hv] at h
    cases h
  | ok sub =>
    rw [subscribe_ok_form hv] at h
    simp only [Except.ok.injEq, Prod.mk.injEq] at h
    obtain ⟨-, rfl⟩ := h
    exact ⟨_, rfl, by simp [urlsOf, mkConfirmEmail],
      by simp [urlsOf, mkConfirmEmail], by simp [urlsOf, mkConfirmEmail]⟩

/-- Witness for C10: the concrete run on the empty store. -/
theorem confirmation_email_single_equal_links_witness :
    ∃ em,
      [mkConfirmEmail "le_guin@gmail.com"
        (confirmationLink "http://127.0.0.1" "tok0")] = [em] ∧
      (urlsOf em.htmlBody).length = 1 ∧
      (urlsOf em.textBody).length = 1 ∧
      urlsOf em.htmlBody = urlsOf em.textBody :=
  confirmation_email_single_equal_links "http://127.0.0.1" Store.empty
    ⟨"Ursula", "le_guin@gmail.com"⟩
    ⟨[⟨0, "le_guin@gmail.com", "Ursula", .PendingConfirmation⟩],
      [("tok0", 0)], 1⟩
    _ rfl

/-- C7: subscription input whose fields are present but fail validation
(empty or whitespace-only name, empty email, email failing the address
grammar) is mapped to a 400 client validation error; input missing a
required field entirely or carrying a null field fails deserialization and
is mapped to 422; and the handler never reports any other status — in
particular never a server fault (5xx) and never a success for such
input. -/
theorem subscribe_status_mapping (baseUrl : String) (st : Store)
    (p : RawPayload) :
    (deserPayload p = none → subscribeStatus baseUrl st p = 422) ∧
    (∀ raw, deserPayload p = some raw →
      (validName raw.name = false ∨ validEmail raw.email = false) →
      subscribeStatus baseUrl st p = 400) ∧
    (subscribeStatus baseUrl st p = 200 ∨
      subscribeStatus baseUrl st p = 400 ∨
      subscribeStatus baseUrl st p = 422) := by
  refine ⟨?_, ?_, ?_⟩
  · intro h
    simp [subscribeStatus, h]
  · intro raw hp hbad
    cases hv : validateSubscriber raw with
    | error e => simp [subscribeStatus, hp, subscribe, hv]
    | ok sub =>
      obtain ⟨-, hn, he⟩ := validateSubscriber_ok hv
      rcases hbad with hb | hb
      · rw [hn] at hb
        cases hb
      · rw [he] at hb
        cases hb
  · unfold subscribeStatus
    cases deserPayload p with
    | none => simp
    | some raw =>
      cases h2 : subscribe baseUrl st raw with
      | error e => simp [h2]
      | ok x => simp [h2]

/-- Witness for C7: the empty-name input maps to 400 and the
missing-email input maps to 422
(`api_subscribe_returns_a_400_when_fields_are_present_but_invalid`,
`api_subscribe_unprocessable_entity`). -/
theorem subscribe_status_mapping_witness :
    subscribeStatus "http://127.0.0.1" Store.empty
      ⟨.str "", .str "jd@example.com"⟩ = 400 ∧
    subscribeStatus "http://127.0.0.1" Store.empty
      ⟨.str "John Doe", .missing⟩ = 422 :=
  ⟨(subscribe_status_mapping "http://127.0.0.1" Store.empty
      ⟨.str "", .str "jd@example.com"⟩).2.1
      ⟨"", "jd@example.com"⟩ rfl (Or.inl rfl),
   (subscribe_status_mapping "http://127.0.0.1" Store.empty
      ⟨.str "John Doe", .missing⟩).1 rfl⟩

end Mailomat
